import Mathlib

/-!
Shallow embedding of the authentication service of `remix-bunjs`
(`src/app/services/auth-service.ts`, schema in `src/db/schema.ts`).

The relational store is a record of lists of rows, mirroring the four
tables of the schema.  Each operation of `AuthService` becomes a pure
function from an environment (current time, the injected hash functions,
the outcomes of the external email sender, and the values produced by
the random id generators) and a store to a tagged result paired with the
updated store.  Timestamps are naturals counting milliseconds, as in
`Date.now()` / oslo `TimeSpan`.

The session library (lucia) is external to the repository; its
`createSession`, `invalidateUserSessions` and `validateSession` are
modelled from the specification's Session Manager contract and write to
the same `session` table, as the SQLite adapter does.
-/

namespace Auth

/-- Row of the `user` table (`schema.users`). -/
structure UserRow where
  id : String
  email : String
  emailVerified : Bool
  passwordHash : String
  createdAt : Nat
deriving Repr, DecidableEq

/-- Row of the `session` table (`schema.sessions`). -/
structure SessionRow where
  id : String
  expiresAt : Nat
  userId : String
deriving Repr, DecidableEq

/-- Row of the `email_verification_code` table (`schema.emailVerificationCodes`). -/
structure EmailVerificationCodeRow where
  id : Nat
  code : String
  userId : String
  email : String
  expiresAt : Nat
deriving Repr, DecidableEq

/-- Row of the `password_reset_token` table (`schema.passwordResetTokens`). -/
structure PasswordResetTokenRow where
  tokenHash : String
  userId : String
  expiresAt : Nat
deriving Repr, DecidableEq

/-- The relational store: the four tables of `src/db/schema.ts`. -/
structure Store where
  users : List UserRow
  sessions : List SessionRow
  emailVerificationCodes : List EmailVerificationCodeRow
  passwordResetTokens : List PasswordResetTokenRow
deriving Repr, DecidableEq

/-- The `Result` type of `src/app/lib/types.ts`:
`{type: "success", data} | {type: "failure", error}`. -/
inductive Result (T : Type) (E : Type) where
  | success (data : T)
  | failure (error : E)
deriving Repr, DecidableEq

/-- The expected failure kinds of the auth service (the string-literal
error types of `AuthServiceInterface`). -/
inductive AuthError where
  | user_exists
  | user_not_found
  | invalid_credentials
  | email_send_error
  | invalid_session
  | invalid_code
  | expired_code
  | email_not_found
  | code_expired
deriving Repr, DecidableEq

/-- Outcome of a call to the external email sender
(`EmailServiceInterface`): success or failure. -/
inductive EmailOutcome where
  | success
  | failure
deriving Repr, DecidableEq

/-- The `User` type of `src/app/lib/types.ts`:
`Pick<UserDB, "id" | "email" | "emailVerified">`. -/
structure User where
  id : String
  email : String
  emailVerified : Bool
deriving Repr, DecidableEq

/-- Environment of one operation: the clock, the injected cryptographic
functions (`Bun.password.hash`, `Bun.password.verify`, SHA-256), the
values drawn from the random generators (`generateIdFromEntropySize`,
`generateRandomString`, the autoincrement row id), and the behaviour of
the external email sender. -/
structure Env where
  now : Nat
  hashPassword : String → String
  verifyPassword : String → String → Bool
  sha256 : String → String
  genUserId : String
  genSessionId : String
  genCode : String
  genTokenId : String
  genCodeRowId : Nat
  sendConfirmEmail : String → String → EmailOutcome
  sendResetPasswordEmail : String → String → EmailOutcome

/-- `new TimeSpan(30, "d")` in milliseconds. -/
def thirtyDaysMs : Nat := 30 * 24 * 60 * 60 * 1000

/-- `new TimeSpan(15, "d")` in milliseconds. -/
def fifteenDaysMs : Nat := 15 * 24 * 60 * 60 * 1000

/-- `new TimeSpan(15, "m")` in milliseconds. -/
def fifteenMinutesMs : Nat := 15 * 60 * 1000

/-- `new TimeSpan(2, "h")` in milliseconds. -/
def twoHoursMs : Nat := 2 * 60 * 60 * 1000

/-- Modelled from the spec: the Session Manager's
`createSession(userId) → sessionId` (lucia, not in the repository) —
generates an identifier and persists a session row with
`expiresAt = now + 30 days`. -/
def createSession (env : Env) (st : Store) (userId : String) :
    String × Store :=
  (env.genSessionId,
   { st with
      sessions := st.sessions ++
        [{ id := env.genSessionId
           expiresAt := env.now + thirtyDaysMs
           userId := userId }] })

/-- Modelled from the spec: the Session Manager's
`invalidateAllUserSessions(userId)` (lucia `invalidateUserSessions`,
not in the repository) — deletes all sessions of the user. -/
def invalidateUserSessions (st : Store) (userId : String) : Store :=
  { st with sessions := st.sessions.filter (fun s => s.userId != userId) }

/-- Modelled from the spec: the Session Manager's
`invalidateSession(sessionId)` (lucia, not in the repository) — deletes
one session, idempotent. -/
def luciaInvalidateSession (st : Store) (sessionId : String) : Store :=
  { st with sessions := st.sessions.filter (fun s => s.id != sessionId) }

/-- Modelled from the spec: lucia's `validateSession(sessionId)` (not in
the repository).  Returns `none` when the session or its user does not
exist; otherwise, when `expiresAt − now < 15 days`, rotates: a new
session identifier for the same user with a new 30-day expiry is created
and reported with `fresh = true`, the old identifier superseded;
otherwise the existing identifier is returned with `fresh = false`. -/
def luciaValidateSession (env : Env) (st : Store) (sessionId : String) :
    Option (UserRow × String × Bool) × Store :=
  match st.sessions.find? (fun s => s.id == sessionId) with
  | none => (none, st)
  | some s =>
    match st.users.find? (fun u => u.id == s.userId) with
    | none => (none, st)
    | some u =>
      if s.expiresAt - env.now < fifteenDaysMs then
        let st1 := luciaInvalidateSession st sessionId
        let (newId, st2) := createSession env st1 s.userId
        (some (u, newId, true), st2)
      else
        (some (u, s.id, false), st)

/-- `AuthService.validateSession` (auth-service.ts:54-68): calls
`lucia.validateSession`; failure `invalid_session` when the user is
`null`; reports `freshSessionId` exactly when the session is fresh. -/
def validateSession (env : Env) (st : Store) (sessionId : String) :
    Result (User × Option String) AuthError × Store :=
  match luciaValidateSession env st sessionId with
  | (none, st') => (Result.failure AuthError.invalid_session, st')
  | (some (u, sid, fresh), st') =>
    let user : User := { id := u.id, email := u.email, emailVerified := u.emailVerified }
    if fresh then
      (Result.success (user, some sid), st')
    else
      (Result.success (user, none), st')

/-- `AuthService.createEmailVerificationCode` (auth-service.ts:134-158):
delete any existing code of the user, generate an 8-digit code, insert
it with a 15-minute expiry, then invoke the email sender; a send failure
surfaces as `email_send_error` (the inserted row remains). -/
def createEmailVerificationCode (env : Env) (st : Store)
    (userId : String) (email : String) : Result Unit AuthError × Store :=
  let st1 := { st with
    emailVerificationCodes :=
      st.emailVerificationCodes.filter (fun c => c.userId != userId) }
  let code := env.genCode
  let st2 := { st1 with
    emailVerificationCodes := st1.emailVerificationCodes ++
      [{ id := env.genCodeRowId
         code := code
         userId := userId
         email := email
         expiresAt := env.now + fifteenMinutesMs }] }
  match env.sendConfirmEmail email code with
  | EmailOutcome.failure => (Result.failure AuthError.email_send_error, st2)
  | EmailOutcome.success => (Result.success (), st2)

/-- `AuthService.signup` (auth-service.ts:70-100): failure `user_exists`
when a user with the email exists; otherwise hash the password, insert
the user, call `createEmailVerificationCode` (its result is not
inspected), create a session and return its id. -/
def signup (env : Env) (st : Store) (email : String) (password : String) :
    Result String AuthError × Store :=
  match st.users.find? (fun u => u.email == email) with
  | some _ => (Result.failure AuthError.user_exists, st)
  | none =>
    let passwordHash := env.hashPassword password
    let userId := env.genUserId
    let st1 := { st with
      users := st.users ++
        [{ id := userId
           email := email
           emailVerified := false
           passwordHash := passwordHash
           createdAt := env.now }] }
    let (_, st2) := createEmailVerificationCode env st1 userId email
    let (sessionId, st3) := createSession env st2 userId
    (Result.success sessionId, st3)

/-- `AuthService.login` (auth-service.ts:102-132): failure
`user_not_found` when no user has the email; failure
`invalid_credentials` when the password does not verify against the
stored hash; otherwise create a session and return its id. -/
def login (env : Env) (st : Store) (email : String) (password : String) :
    Result String AuthError × Store :=
  match st.users.find? (fun u => u.email == email) with
  | none => (Result.failure AuthError.user_not_found, st)
  | some user =>
    if env.verifyPassword password user.passwordHash = false then
      (Result.failure AuthError.invalid_credentials, st)
    else
      let (sessionId, st1) := createSession env st user.id
      (Result.success sessionId, st1)

/-- Outcome of `AuthService.checkEmailCode`. -/
inductive CodeCheck where
  | valid
  | expired
  | invalid
deriving Repr, DecidableEq

/-- `AuthService.checkEmailCode` (auth-service.ts:269-299): fetch the
stored code by user id; `invalid` when none exists or the supplied code
differs from the stored one (the row is left in place); otherwise delete
the row, then `expired` when past expiry or when the code's email
differs from the user's email, else `valid`. -/
def checkEmailCode (env : Env) (st : Store) (user : User) (code : String) :
    CodeCheck × Store :=
  match st.emailVerificationCodes.find? (fun c => c.userId == user.id) with
  | none => (CodeCheck.invalid, st)
  | some evc =>
    if code != evc.code then
      (CodeCheck.invalid, st)
    else
      let st1 := { st with
        emailVerificationCodes :=
          st.emailVerificationCodes.filter (fun c => c.id != evc.id) }
      if evc.expiresAt < env.now then
        (CodeCheck.expired, st1)
      else if evc.email != user.email then
        (CodeCheck.expired, st1)
      else
        (CodeCheck.valid, st1)

/-- `AuthService.verifyEmailCode` (auth-service.ts:160-189): map
`checkEmailCode`'s `invalid` to `invalid_code` and `expired` to
`expired_code`; on `valid`, set the user's `emailVerified`, invalidate
all of the user's sessions, create a session and return its id. -/
def verifyEmailCode (env : Env) (st : Store) (user : User) (code : String) :
    Result String AuthError × Store :=
  match checkEmailCode env st user code with
  | (CodeCheck.invalid, st1) => (Result.failure AuthError.invalid_code, st1)
  | (CodeCheck.expired, st1) => (Result.failure AuthError.expired_code, st1)
  | (CodeCheck.valid, st1) =>
    let st2 := { st1 with
      users := st1.users.map (fun u =>
        if u.id == user.id then { u with emailVerified := true } else u) }
    let st3 := invalidateUserSessions st2 user.id
    let (sessionId, st4) := createSession env st3 user.id
    (Result.success sessionId, st4)

/-- `AuthService.logout` (auth-service.ts:191-199): invalidate the
session; always reports success. -/
def logout (st : Store) (sessionId : String) : Result Unit AuthError × Store :=
  (Result.success (), luciaInvalidateSession st sessionId)

/-- `AuthService.createPasswordResetToken` (auth-service.ts:301-320):
delete any existing token of the user, generate a 40-character token,
store its SHA-256 hash with a 2-hour expiry, and return the plaintext
token. -/
def createPasswordResetToken (env : Env) (st : Store) (userId : String) :
    String × Store :=
  let st1 := { st with
    passwordResetTokens :=
      st.passwordResetTokens.filter (fun t => t.userId != userId) }
  let tokenId := env.genTokenId
  let tokenHash := env.sha256 tokenId
  (tokenId,
   { st1 with
      passwordResetTokens := st1.passwordResetTokens ++
        [{ tokenHash := tokenHash
           userId := userId
           expiresAt := env.now + twoHoursMs }] })

/-- `AuthService.resetPasswordRequest` (auth-service.ts:201-227):
failure `email_not_found` when no user has the email; otherwise create a
password-reset token, send the reset link; a send failure surfaces as
`email_send_error` (the token row remains); otherwise success with the
plaintext token. -/
def resetPasswordRequest (env : Env) (st : Store)
    (domain : String) (email : String) : Result String AuthError × Store :=
  match st.users.find? (fun u => u.email == email) with
  | none => (Result.failure AuthError.email_not_found, st)
  | some user =>
    let (tokenId, st1) := createPasswordResetToken env st user.id
    let verificationLink := domain ++ "/reset-password?token=" ++ tokenId
    match env.sendResetPasswordEmail email verificationLink with
    | EmailOutcome.failure => (Result.failure AuthError.email_send_error, st1)
    | EmailOutcome.success => (Result.success tokenId, st1)

/-- `AuthService.resetPassword` (auth-service.ts:229-267): hash the
supplied token and look the row up by hash; failure `invalid_code` when
absent; failure `code_expired` when past expiry; otherwise invalidate
all of the user's sessions, replace the user's password hash, create a
session and return its id. -/
def resetPassword (env : Env) (st : Store)
    (newPassword : String) (token : String) : Result String AuthError × Store :=
  let tokenHash := env.sha256 token
  match st.passwordResetTokens.find? (fun t => t.tokenHash == tokenHash) with
  | none => (Result.failure AuthError.invalid_code, st)
  | some passwordResetToken =>
    if passwordResetToken.expiresAt < env.now then
      (Result.failure AuthError.code_expired, st)
    else
      let st1 := invalidateUserSessions st passwordResetToken.userId
      let passwordHash := env.hashPassword newPassword
      let st2 := { st1 with
        users := st1.users.map (fun u =>
          if u.id == passwordResetToken.userId then
            { u with passwordHash := passwordHash }
          else u) }
      let (sessionId, st3) := createSession env st2 passwordResetToken.userId
      (Result.success sessionId, st3)

end Auth

namespace Auth

/-! Concrete instantiations of the external collaborators and concrete
stores, used to evaluate the operations at specific inputs. -/

/-- Concrete stand-in for the external SHA-256 function (injective,
distinct from the identity). -/
def shaC : String → String := fun s => String.append "sha-" s

/-- Concrete stand-in for `Bun.password.hash`. -/
def hashC : String → String := fun s => String.append "ph-" s

/-- Concrete stand-in for `Bun.password.verify`, matching `hashC`. -/
def verifyC : String → String → Bool := fun p h => h == String.append "ph-" p

/-- Environment whose email sender succeeds. -/
def envOk : Env :=
  { now := 1000000
    hashPassword := hashC
    verifyPassword := verifyC
    sha256 := shaC
    genUserId := "uid1"
    genSessionId := "sid1"
    genCode := "12345678"
    genTokenId := "tok1"
    genCodeRowId := 1
    sendConfirmEmail := fun _ _ => EmailOutcome.success
    sendResetPasswordEmail := fun _ _ => EmailOutcome.success }

/-- Environment whose email sender fails every send. -/
def envFail : Env :=
  { envOk with
    sendConfirmEmail := fun _ _ => EmailOutcome.failure
    sendResetPasswordEmail := fun _ _ => EmailOutcome.failure }

/-- Environment like `envOk` but at another time and with another user id
drawn from the generator; the token drawn is the same. -/
def envA : Env := { envOk with now := 5, genUserId := "uA" }

/-- Environment like `envOk` but at a third time, with other generated
ids; the token drawn is the same. -/
def envB : Env := { envOk with now := 999999999, genUserId := "uB", genSessionId := "sB" }

/-- The empty store. -/
def store0 : Store :=
  { users := [], sessions := [], emailVerificationCodes := [], passwordResetTokens := [] }

/-- A stored, unexpired email-verification code for user `u1`. -/
def evc0 : EmailVerificationCodeRow :=
  { id := 1, code := "11111111", userId := "u1", email := "a@b.c", expiresAt := 2000000 }

/-- The user `u1` as the `User` value passed to `verifyEmailCode`. -/
def user1 : User := { id := "u1", email := "a@b.c", emailVerified := false }

/-- Store holding only the code row `evc0`. -/
def stC2 : Store := { store0 with emailVerificationCodes := [evc0] }

/-- A stored but expired email-verification code for user `u1`. -/
def evcExp : EmailVerificationCodeRow :=
  { id := 2, code := "33333333", userId := "u1", email := "a@b.c", expiresAt := 5 }

/-- Store holding only the expired code row `evcExp`. -/
def stC7 : Store := { store0 with emailVerificationCodes := [evcExp] }

/-- The row of user `u1` in the `user` table. -/
def userRow1 : UserRow :=
  { id := "u1", email := "a@b.c", emailVerified := false,
    passwordHash := "ph-pw", createdAt := 0 }

/-- A session of `u1` with far less than 15 days remaining. -/
def sessFresh : SessionRow := { id := "s1", expiresAt := 1001000, userId := "u1" }

/-- A session of `u1` with exactly 15 days remaining. -/
def sessLong : SessionRow :=
  { id := "s2", expiresAt := 1000000 + fifteenDaysMs, userId := "u1" }

/-- Store holding user `u1` and the two sessions. -/
def stSess : Store :=
  { store0 with users := [userRow1], sessions := [sessFresh, sessLong] }

/-- Store holding the session `s1` but not its user. -/
def stOrphan : Store := { store0 with sessions := [sessFresh] }

/-- An expired password-reset token row of `u1`, keyed by the hash of
`tok1` under `shaC`. -/
def prtExp : PasswordResetTokenRow :=
  { tokenHash := "sha-tok1", userId := "u1", expiresAt := 5 }

/-- An unexpired password-reset token row of `u1`, keyed by the hash of
`tok1` under `shaC`. -/
def prtOk : PasswordResetTokenRow :=
  { tokenHash := "sha-tok1", userId := "u1", expiresAt := 2000000 }

/-- Store holding only the expired token row. -/
def stExp : Store := { store0 with passwordResetTokens := [prtExp] }

/-- Store holding only the unexpired token row. -/
def stOk : Store := { store0 with passwordResetTokens := [prtOk] }

/-- A pre-existing token row of another user whose stored key happens to
equal the plaintext `tok1`. -/
def prtPlain : PasswordResetTokenRow :=
  { tokenHash := "tok1", userId := "u9", expiresAt := 7 }

/-- Store holding only `prtPlain`. -/
def stW9 : Store := { store0 with passwordResetTokens := [prtPlain] }

end Auth

namespace Auth

/-- C1 (counterexample): with an email sender that fails, signup on a
fresh email nevertheless returns success with the new session id — it
does not return `email_send_error` as the claim states. -/
theorem C1_counterexample :
    (signup envFail store0 "a@b.c" "pw").fst = Result.success "sid1" ∧
    (signup envFail store0 "a@b.c" "pw").fst ≠ Result.failure AuthError.email_send_error := by
  decide

/-- C1 (amended): when the email is unregistered and the confirm-email
send fails, the user row is still created, but signup returns success
with the new session id; the failure of `createEmailVerificationCode`
is not propagated (its result is discarded at auth-service.ts:93). -/
theorem signup_on_send_failure (env : Env) (st : Store) (email password : String)
    (hno : st.users.find? (fun u => u.email == email) = none)
    (hfail : env.sendConfirmEmail email env.genCode = EmailOutcome.failure) :
    (signup env st email password).fst = Result.success env.genSessionId ∧
    ∃ u ∈ (signup env st email password).snd.users,
      u.id = env.genUserId ∧ u.email = email := by
  refine ⟨?_, ?_⟩
  · unfold signup createEmailVerificationCode createSession
    rw [hno]
  · unfold signup createEmailVerificationCode createSession
    rw [hno]
    simp only [hfail]
    exact ⟨{ id := env.genUserId, email := email, emailVerified := false,
             passwordHash := env.hashPassword password, createdAt := env.now },
           by simp, rfl, rfl⟩

/-- C1 (witness): the amended signup theorem applied at a concrete
store, with the failing email sender. -/
theorem signup_on_send_failure_witness :
    (signup envFail store0 "a@b.c" "pw").fst = Result.success "sid1" :=
  (signup_on_send_failure envFail store0 "a@b.c" "pw" (by decide) (by decide)).1

/-- C2 (counterexample): a verification attempt with a non-matching code
returns `invalid_code` and leaves the stored code row in place — the
row is not consumed on a mismatching attempt, contrary to the claim. -/
theorem C2_counterexample :
    (verifyEmailCode envOk stC2 user1 "22222222").fst = Result.failure AuthError.invalid_code ∧
    (verifyEmailCode envOk stC2 user1 "22222222").snd.emailVerificationCodes = [evc0] := by
  decide

/-- C2 (amended): when a stored code row exists for the user, the row is
deleted exactly when the supplied code equals the stored code (then it
is consumed whether valid, expired, or email-mismatched); on a
non-matching supplied code the table is unchanged. -/
theorem verifyEmailCode_consumes_iff_match (env : Env) (st : Store) (user : User)
    (code : String) (evc : EmailVerificationCodeRow)
    (hfind : st.emailVerificationCodes.find? (fun c => c.userId == user.id) = some evc) :
    (verifyEmailCode env st user code).snd.emailVerificationCodes =
      if code = evc.code then
        st.emailVerificationCodes.filter (fun c => c.id != evc.id)
      else
        st.emailVerificationCodes := by
  unfold verifyEmailCode checkEmailCode
  rw [hfind]
  by_cases h : code = evc.code
  · simp only [h, bne_self_eq_false, Bool.false_eq_true, if_false, if_pos]
    by_cases h1 : evc.expiresAt < env.now
    · simp [h1]
    · by_cases h2 : evc.email = user.email
      · simp [h1, h2, invalidateUserSessions, createSession]
      · simp [h1, h2]
  · have hb : (code != evc.code) = true := by simp [bne_iff_ne, h]
    simp [hb, h]

/-- C2 (witness): the consumption theorem applied at a concrete store
where the supplied code matches. -/
theorem verifyEmailCode_consumes_iff_match_witness :
    (verifyEmailCode envOk stC2 user1 "11111111").snd.emailVerificationCodes =
      if "11111111" = evc0.code then
        stC2.emailVerificationCodes.filter (fun c => c.id != evc0.id)
      else
        stC2.emailVerificationCodes :=
  verifyEmailCode_consumes_iff_match envOk stC2 user1 "11111111" evc0 (by decide)

/-- C3: when the stored code exists, matches, is unexpired and carries
the user's email, `verifyEmailCode` succeeds with the newly created
session id, the user's row is marked email-verified, and the user's
sessions afterwards are exactly the one new session (every prior session
of the user is gone). -/
theorem verifyEmailCode_success (env : Env) (st : Store) (user : User)
    (code : String) (evc : EmailVerificationCodeRow)
    (hfind : st.emailVerificationCodes.find? (fun c => c.userId == user.id) = some evc)
    (hcode : code = evc.code)
    (hexp : ¬ evc.expiresAt < env.now)
    (hemail : evc.email = user.email) :
    (verifyEmailCode env st user code).fst = Result.success env.genSessionId ∧
    (∀ u ∈ (verifyEmailCode env st user code).snd.users,
        u.id = user.id → u.emailVerified = true) ∧
    (verifyEmailCode env st user code).snd.sessions =
      st.sessions.filter (fun s => s.userId != user.id) ++
        [{ id := env.genSessionId, expiresAt := env.now + thirtyDaysMs,
           userId := user.id }] := by
  have hck : checkEmailCode env st user code =
      (CodeCheck.valid,
       { st with emailVerificationCodes :=
           st.emailVerificationCodes.filter (fun c => c.id != evc.id) }) := by
    unfold checkEmailCode
    rw [hfind]
    simp [hcode, hexp, hemail]
  unfold verifyEmailCode
  rw [hck]
  refine ⟨rfl, ?_, rfl⟩
  intro u hu hid
  simp only [invalidateUserSessions, createSession, List.mem_map] at hu
  obtain ⟨a, ha, rfl⟩ := hu
  by_cases h : a.id = user.id
  · simp [h]
  · have hb : (a.id == user.id) = false := by simp [h]
    rw [hb] at hid
    simp at hid
    exact absurd hid h

/-- C3 (witness): the success theorem applied at a concrete store with
a matching unexpired code. -/
theorem verifyEmailCode_success_witness :
    (verifyEmailCode envOk stC2 user1 "11111111").fst = Result.success "sid1" ∧
    (verifyEmailCode envOk stC2 user1 "11111111").snd.sessions =
      stC2.sessions.filter (fun s => s.userId != user1.id) ++
        [{ id := "sid1", expiresAt := envOk.now + thirtyDaysMs, userId := "u1" }] :=
  ⟨(verifyEmailCode_success envOk stC2 user1 "11111111" evc0
      (by decide) (by decide) (by decide) (by decide)).1,
   (verifyEmailCode_success envOk stC2 user1 "11111111" evc0
      (by decide) (by decide) (by decide) (by decide)).2.2⟩

end Auth

namespace Auth

/-- C4: `resetPassword(newPassword, token)` — when no stored token's
hash equals the hash of the supplied token it fails `invalid_code` and
leaves the store unchanged; when the matched row is past expiry it fails
`code_expired`; otherwise it succeeds with the newly created session id,
every user row with the token's user id carries the new password hash,
and the token's user's sessions are exactly the one new session. -/
theorem resetPassword_cases (env : Env) (st : Store) (newPassword token : String) :
    (st.passwordResetTokens.find? (fun t => t.tokenHash == env.sha256 token) = none →
      resetPassword env st newPassword token = (Result.failure AuthError.invalid_code, st)) ∧
    (∀ prt, st.passwordResetTokens.find? (fun t => t.tokenHash == env.sha256 token) = some prt →
      prt.expiresAt < env.now →
      resetPassword env st newPassword token = (Result.failure AuthError.code_expired, st)) ∧
    (∀ prt, st.passwordResetTokens.find? (fun t => t.tokenHash == env.sha256 token) = some prt →
      ¬ prt.expiresAt < env.now →
      (resetPassword env st newPassword token).fst = Result.success env.genSessionId ∧
      (∀ u ∈ (resetPassword env st newPassword token).snd.users,
          u.id = prt.userId → u.passwordHash = env.hashPassword newPassword) ∧
      (resetPassword env st newPassword token).snd.sessions =
        st.sessions.filter (fun s => s.userId != prt.userId) ++
          [{ id := env.genSessionId, expiresAt := env.now + thirtyDaysMs,
             userId := prt.userId }]) := by
  refine ⟨?_, ?_, ?_⟩
  · intro h
    simp only [resetPassword]
    rw [h]
  · intro prt h hexp
    simp only [resetPassword]
    rw [h]
    simp [hexp]
  · intro prt h hexp
    simp only [resetPassword]
    rw [h]
    simp only [if_neg hexp]
    refine ⟨rfl, ?_, rfl⟩
    intro u hu hid
    simp only [invalidateUserSessions, createSession, List.mem_map] at hu
    obtain ⟨a, ha, rfl⟩ := hu
    by_cases hh : a.id = prt.userId
    · simp [hh]
    · have hb : (a.id == prt.userId) = false := by simp [hh]
      rw [hb] at hid
      simp at hid
      exact absurd hid hh

/-- C4 (witness): the three branches of the resetPassword theorem at
concrete stores: unknown token, expired token, valid token. -/
theorem resetPassword_cases_witness :
    resetPassword envOk store0 "np" "unknown" = (Result.failure AuthError.invalid_code, store0) ∧
    resetPassword envOk stExp "np" "tok1" = (Result.failure AuthError.code_expired, stExp) ∧
    (resetPassword envOk stOk "np" "tok1").fst = Result.success "sid1" :=
  ⟨(resetPassword_cases envOk store0 "np" "unknown").1 (by decide),
   (resetPassword_cases envOk stExp "np" "tok1").2.1 prtExp (by decide) (by decide),
   ((resetPassword_cases envOk stOk "np" "tok1").2.2 prtOk (by decide) (by decide)).1⟩

/-- C5: `validateSession(sessionId)` fails `invalid_session` exactly
when the session row or its user row is absent; with both present and
less than 15 days remaining it succeeds reporting a fresh session id
(a new identifier for the same user with a new 30-day expiry, the old
row superseded); with at least 15 days remaining it succeeds with no
fresh session id and an unchanged store. -/
theorem validateSession_spec (env : Env) (st : Store) (sessionId : String) :
    (st.sessions.find? (fun x => x.id == sessionId) = none →
      validateSession env st sessionId = (Result.failure AuthError.invalid_session, st)) ∧
    (∀ s, st.sessions.find? (fun x => x.id == sessionId) = some s →
      st.users.find? (fun x => x.id == s.userId) = none →
      validateSession env st sessionId = (Result.failure AuthError.invalid_session, st)) ∧
    (∀ s u, st.sessions.find? (fun x => x.id == sessionId) = some s →
      st.users.find? (fun x => x.id == s.userId) = some u →
      s.expiresAt - env.now < fifteenDaysMs →
      validateSession env st sessionId =
        (Result.success
          ({ id := u.id, email := u.email, emailVerified := u.emailVerified },
           some env.genSessionId),
         { st with sessions :=
             st.sessions.filter (fun x => x.id != sessionId) ++
               [{ id := env.genSessionId, expiresAt := env.now + thirtyDaysMs,
                  userId := s.userId }] })) ∧
    (∀ s u, st.sessions.find? (fun x => x.id == sessionId) = some s →
      st.users.find? (fun x => x.id == s.userId) = some u →
      ¬ s.expiresAt - env.now < fifteenDaysMs →
      validateSession env st sessionId =
        (Result.success
          ({ id := u.id, email := u.email, emailVerified := u.emailVerified },
           none),
         st)) := by
  refine ⟨?_, ?_, ?_, ?_⟩
  · intro h
    unfold validateSession luciaValidateSession
    rw [h]
  · intro s hs hu
    unfold validateSession luciaValidateSession
    simp only [hs, hu]
  · intro s u hs hu hfresh
    unfold validateSession luciaValidateSession
    simp only [hs, hu]
    simp [hfresh, luciaInvalidateSession, createSession]
  · intro s u hs hu hfresh
    unfold validateSession luciaValidateSession
    simp only [hs, hu]
    simp [hfresh]

/-- C5 (witness): the four branches of the validateSession theorem at
concrete stores: unknown session, session without user, session with
less than 15 days remaining, session with 15 days remaining. -/
theorem validateSession_spec_witness :
    validateSession envOk store0 "nosuch" = (Result.failure AuthError.invalid_session, store0) ∧
    validateSession envOk stOrphan "s1" = (Result.failure AuthError.invalid_session, stOrphan) ∧
    validateSession envOk stSess "s1" =
      (Result.success
        ({ id := "u1", email := "a@b.c", emailVerified := false }, some "sid1"),
       { stSess with sessions :=
           stSess.sessions.filter (fun x => x.id != "s1") ++
             [{ id := "sid1", expiresAt := envOk.now + thirtyDaysMs, userId := "u1" }] }) ∧
    validateSession envOk stSess "s2" =
      (Result.success
        ({ id := "u1", email := "a@b.c", emailVerified := false }, none),
       stSess) :=
  ⟨(validateSession_spec envOk store0 "nosuch").1 (by decide),
   (validateSession_spec envOk stOrphan "s1").2.1 sessFresh (by decide) (by decide),
   (validateSession_spec envOk stSess "s1").2.2.1 sessFresh userRow1
     (by decide) (by decide) (by decide),
   (validateSession_spec envOk stSess "s2").2.2.2 sessLong userRow1
     (by decide) (by decide) (by decide)⟩

/-- C6: `login(email, password)` fails `user_not_found` when no user has
the email, fails `invalid_credentials` when the password does not verify
against the stored hash, and otherwise succeeds with the newly created
session id for that user. -/
theorem login_cases (env : Env) (st : Store) (email password : String) :
    (st.users.find? (fun u => u.email == email) = none →
      login env st email password = (Result.failure AuthError.user_not_found, st)) ∧
    (∀ user, st.users.find? (fun u => u.email == email) = some user →
      env.verifyPassword password user.passwordHash = false →
      login env st email password = (Result.failure AuthError.invalid_credentials, st)) ∧
    (∀ user, st.users.find? (fun u => u.email == email) = some user →
      env.verifyPassword password user.passwordHash = true →
      (login env st email password).fst = Result.success env.genSessionId ∧
      (login env st email password).snd.sessions =
        st.sessions ++
          [{ id := env.genSessionId, expiresAt := env.now + thirtyDaysMs,
             userId := user.id }]) := by
  refine ⟨?_, ?_, ?_⟩
  · intro h
    unfold login
    rw [h]
  · intro user h hv
    unfold login
    rw [h]
    simp [hv]
  · intro user h hv
    unfold login
    rw [h]
    simp [hv, createSession]

/-- C6 (witness): the three branches of the login theorem at concrete
stores: unknown email, wrong password, correct credentials. -/
theorem login_cases_witness :
    login envOk store0 "a@b.c" "pw" = (Result.failure AuthError.user_not_found, store0) ∧
    login envOk stSess "a@b.c" "wrong" = (Result.failure AuthError.invalid_credentials, stSess) ∧
    (login envOk stSess "a@b.c" "pw").fst = Result.success "sid1" :=
  ⟨(login_cases envOk store0 "a@b.c" "pw").1 (by decide),
   (login_cases envOk stSess "a@b.c" "wrong").2.1 userRow1 (by decide) (by decide),
   ((login_cases envOk stSess "a@b.c" "pw").2.2 userRow1 (by decide) (by decide)).1⟩

/-- C7: when the stored code exists and matches the supplied code, but
is past expiry or carries an email different from the user's,
`verifyEmailCode` fails with `expired_code` (not `invalid_code`). -/
theorem verifyEmailCode_expired_cases (env : Env) (st : Store) (user : User)
    (code : String) (evc : EmailVerificationCodeRow)
    (hfind : st.emailVerificationCodes.find? (fun c => c.userId == user.id) = some evc)
    (hcode : code = evc.code)
    (h : evc.expiresAt < env.now ∨ evc.email ≠ user.email) :
    (verifyEmailCode env st user code).fst = Result.failure AuthError.expired_code := by
  have hck : checkEmailCode env st user code =
      (CodeCheck.expired,
       { st with emailVerificationCodes :=
           st.emailVerificationCodes.filter (fun c => c.id != evc.id) }) := by
    unfold checkEmailCode
    rw [hfind]
    rcases h with h | h
    · simp [hcode, h]
    · by_cases h1 : evc.expiresAt < env.now
      · simp [hcode, h1]
      · simp [hcode, h1, h]
  unfold verifyEmailCode
  rw [hck]

/-- C7 (witness): the expired-code theorem applied at a concrete store
holding a matching but expired code. -/
theorem verifyEmailCode_expired_cases_witness :
    (verifyEmailCode envOk stC7 user1 "33333333").fst = Result.failure AuthError.expired_code :=
  verifyEmailCode_expired_cases envOk stC7 user1 "33333333" evcExp
    (by decide) (by decide) (Or.inl (by decide))

end Auth

namespace Auth

/-- C8: `resetPassword` never touches the `password_reset_token` table:
its post-state table equals the pre-state table, so in particular the
matched row of a successful reset is still present afterwards. -/
theorem resetPassword_preserves_reset_tokens (env : Env) (st : Store)
    (newPassword token : String) :
    (resetPassword env st newPassword token).snd.passwordResetTokens =
      st.passwordResetTokens ∧
    (∀ prt, st.passwordResetTokens.find? (fun t => t.tokenHash == env.sha256 token) = some prt →
      prt ∈ (resetPassword env st newPassword token).snd.passwordResetTokens) := by
  have h1 : (resetPassword env st newPassword token).snd.passwordResetTokens =
      st.passwordResetTokens := by
    simp only [resetPassword]
    split
    · rfl
    · split
      · rfl
      · rfl
  refine ⟨h1, ?_⟩
  intro prt hfind
  rw [h1]
  exact List.mem_of_find?_eq_some hfind

/-- C8 (witness): after a successful concrete reset the matched token
row is still in the store. -/
theorem resetPassword_preserves_reset_tokens_witness :
    prtOk ∈ (resetPassword envOk stOk "np" "tok1").snd.passwordResetTokens :=
  (resetPassword_preserves_reset_tokens envOk stOk "np" "tok1").2 prtOk (by decide)

/-- C9 (counterexample): the persisted token hash is a function of the
plaintext token alone — two creations at different times, for different
users, drawing the same token, persist the identical hash value, so no
per-call salt enters the stored hash (the hash is unsalted SHA-256 of
the token, not a salted hash). -/
theorem C9_counterexample :
    envA.now ≠ envB.now ∧
    (createPasswordResetToken envA store0 "u1").snd.passwordResetTokens.map
        (fun t => t.tokenHash) = ["sha-tok1"] ∧
    (createPasswordResetToken envB store0 "u2").snd.passwordResetTokens.map
        (fun t => t.tokenHash) = ["sha-tok1"] := by
  decide

/-- C9 (amended): `createPasswordResetToken` returns the plaintext token
and persists exactly one new row, keyed by the unsalted SHA-256 hash of
the token with a 2-hour expiry; the plaintext itself is never written —
whenever the hash differs from the plaintext, any stored row whose key
equals the plaintext predates the call. -/
theorem createPasswordResetToken_stores_hash_only (env : Env) (st : Store)
    (userId : String) :
    (createPasswordResetToken env st userId).fst = env.genTokenId ∧
    (createPasswordResetToken env st userId).snd.passwordResetTokens =
      st.passwordResetTokens.filter (fun t => t.userId != userId) ++
        [{ tokenHash := env.sha256 env.genTokenId, userId := userId,
           expiresAt := env.now + twoHoursMs }] ∧
    (env.sha256 env.genTokenId ≠ env.genTokenId →
      ∀ t ∈ (createPasswordResetToken env st userId).snd.passwordResetTokens,
        t.tokenHash = env.genTokenId → t ∈ st.passwordResetTokens) := by
  refine ⟨rfl, rfl, ?_⟩
  intro hne t ht hhash
  simp only [createPasswordResetToken, List.mem_append, List.mem_filter,
    List.mem_singleton] at ht
  rcases ht with ⟨hmem, _⟩ | hrow
  · exact hmem
  · exfalso
    rw [hrow] at hhash
    exact hne hhash

/-- C9 (witness): the hash-only theorem at a concrete store: the call
returns the plaintext `tok1`, and the pre-existing row whose key equals
`tok1` is recognised as predating the call. -/
theorem createPasswordResetToken_stores_hash_only_witness :
    (createPasswordResetToken envOk stW9 "u1").fst = "tok1" ∧
    prtPlain ∈ stW9.passwordResetTokens :=
  ⟨(createPasswordResetToken_stores_hash_only envOk stW9 "u1").1,
   (createPasswordResetToken_stores_hash_only envOk stW9 "u1").2.2
     (by decide) prtPlain (by decide) (by decide)⟩

/-- Helper: when some stored token row's hash equals the hash of the
supplied token, `resetPassword` cannot answer `invalid_code`. -/
theorem resetPassword_not_invalid_of_mem (env2 : Env) (st' : Store)
    (tokenId newPassword : String)
    (hmem : ∃ t ∈ st'.passwordResetTokens, t.tokenHash = env2.sha256 tokenId) :
    (resetPassword env2 st' newPassword tokenId).fst ≠
      Result.failure AuthError.invalid_code := by
  obtain ⟨t, htmem, hthash⟩ := hmem
  simp only [resetPassword]
  rcases hfind2 : st'.passwordResetTokens.find?
      (fun x => x.tokenHash == env2.sha256 tokenId) with _ | prt
  · exfalso
    have := List.find?_eq_none.mp hfind2 t htmem
    simp [hthash] at this
  · rw [hfind2]
    by_cases hexp : prt.expiresAt < env2.now
    · simp [hexp]
    · simp [hexp]

/-- C10: round-trip — when `resetPasswordRequest` succeeds with a
plaintext token, the store afterwards holds a row whose key equals the
SHA-256 hash of that token, so a following `resetPassword` with that
token (under the same hash function) never answers `invalid_code`. -/
theorem resetPasswordRequest_roundtrip (env env2 : Env) (st : Store)
    (domain email tokenId : String) (st' : Store)
    (hsha : env2.sha256 = env.sha256)
    (h : resetPasswordRequest env st domain email = (Result.success tokenId, st')) :
    (∃ t ∈ st'.passwordResetTokens, t.tokenHash = env2.sha256 tokenId) ∧
    ∀ newPassword,
      (resetPassword env2 st' newPassword tokenId).fst ≠
        Result.failure AuthError.invalid_code := by
  unfold resetPasswordRequest at h
  rcases hfind : st.users.find? (fun u => u.email == email) with _ | user
  · rw [hfind] at h
    simp at h
  · rw [hfind] at h
    simp only [createPasswordResetToken] at h
    rcases hsend : env.sendResetPasswordEmail email
        (domain ++ "/reset-password?token=" ++ env.genTokenId) with _ | _
    · rw [hsend] at h
      simp only [Prod.mk.injEq, Result.success.injEq] at h
      obtain ⟨h1, h2⟩ := h
      subst h1
      subst h2
      have hex : ∃ t ∈ (List.filter (fun t => t.userId != user.id)
            st.passwordResetTokens ++
            [{ tokenHash := env.sha256 env.genTokenId, userId := user.id,
               expiresAt := env.now + twoHoursMs }]),
          t.tokenHash = env2.sha256 env.genTokenId := by
        refine ⟨{ tokenHash := env.sha256 env.genTokenId, userId := user.id,
                  expiresAt := env.now + twoHoursMs }, by simp, by rw [hsha]⟩
      exact ⟨hex, fun newPassword =>
        resetPassword_not_invalid_of_mem env2 _ _ newPassword hex⟩
    · rw [hsend] at h
      simp at h

/-- C10 (witness): a concrete request followed by a reset with the
returned token does not answer `invalid_code`. -/
theorem resetPasswordRequest_roundtrip_witness :
    (resetPassword envOk (resetPasswordRequest envOk stSess "https://x" "a@b.c").snd
        "np" "tok1").fst ≠ Result.failure AuthError.invalid_code :=
  (resetPasswordRequest_roundtrip envOk envOk stSess "https://x" "a@b.c" "tok1"
      (resetPasswordRequest envOk stSess "https://x" "a@b.c").snd rfl (by decide)).2 "np"

end Auth
